import Mathlib

/-!
Shallow embedding of the forecast windowing / chart composition logic of the
Economic_terminal dashboard (source file `src/unnamed/part_000`), together with
theorems settling the spec claims about it.

Modeling conventions:
* JS dates are opaque strings; values are modeled as integers (the claims are
  purely structural: slicing, concatenation and lengths, never arithmetic).
* A chart data cell is a `JsVal`: a number, `null` (the explicit absence
  marker), or `undefined` (what `values[values.length - 1]` yields on an empty
  array).
* JS code that throws (`Array(n)` with a negative argument) is embedded as an
  `Option`-returning function, `none` on the throwing inputs.
-/

namespace EconTerminal

abbrev Date := String

abbrev Value := Int

/-- A JavaScript chart-data cell: a number, `null`, or `undefined`. -/
inductive JsVal where
  | num (v : Value)
  | null
  | undefined
deriving DecidableEq, Repr

/-- `data.historical` of a ForecastResult: parallel date and value arrays. -/
structure Historical where
  dates : List Date
  values : List Value
deriving DecidableEq, Repr

/-- `data.forecast`: forecast dates/values plus the four sigma band arrays
(field names as in the source: `forecast.sigma_1_up`, etc.). -/
structure Forecast where
  dates : List Date
  values : List Value
  sigma_1_up : List Value
  sigma_1_down : List Value
  sigma_2_up : List Value
  sigma_2_down : List Value
deriving DecidableEq, Repr

/-- `data.comparison`: the held-out test window (fields the client reads in
`renderDiffChart`: `dates`, `actual_diff`, `predict_diff`). -/
structure Comparison where
  dates : List Date
  actual_diff : List Value
  predict_diff : List Value
deriving DecidableEq, Repr

/-- A ForecastResult as consumed by the chart code (`data.historical`,
`data.forecast`, `data.comparison`). -/
structure ForecastResult where
  historical : Historical
  forecast : Forecast
  comparison : Comparison
deriving DecidableEq, Repr

/-- Data-model invariant of a well-formed ForecastResult (spec §3): the
historical value array is parallel to the historical date array, and the
forecast values and all four band arrays have one entry per forecast date. -/
def WellFormed (r : ForecastResult) : Prop :=
  r.historical.values.length = r.historical.dates.length ∧
  r.forecast.values.length = r.forecast.dates.length ∧
  r.forecast.sigma_1_up.length = r.forecast.dates.length ∧
  r.forecast.sigma_1_down.length = r.forecast.dates.length ∧
  r.forecast.sigma_2_up.length = r.forecast.dates.length ∧
  r.forecast.sigma_2_down.length = r.forecast.dates.length

/-! ## WindowResolver: the observation-count slicing logic

From `handlePeriodChange` (part_000 lines 1054-1061) and
`renderTileForecastChart` (lines 1764-1771):
`histStart = Math.max(0, historical.dates.length - periodValue)` and both
`historical.dates` and `historical.values` are sliced from `histStart`
onward, only when `periodValue > 0` (period `0` is the "Max" button). -/

/-- `Math.max(0, historical.dates.length - periodValue)` — `Int.toNat` is
exactly the clamp to zero. -/
def histStart (historical : Historical) (periodValue : Int) : Nat :=
  ((historical.dates.length : Int) - periodValue).toNat

/-- The slicing both chart sites perform on the historical arrays: when
`periodValue > 0`, drop everything before `histStart`; otherwise ("Max",
period value 0) keep the full history. -/
def sliceHistorical (historical : Historical) (periodValue : Int) : Historical :=
  if 0 < periodValue then
    { dates := historical.dates.drop (histStart historical periodValue),
      values := historical.values.drop (histStart historical periodValue) }
  else historical

/-- The WindowResolver on a full ForecastResult: re-slice `historical`,
leave `forecast` and `comparison` untouched (neither chart site touches
them when re-windowing). -/
def resolveWindow (result : ForecastResult) (periodValue : Int) : ForecastResult :=
  { result with historical := sliceHistorical result.historical periodValue }

/-! ## ChartComposer: building the combined timeline

From `renderForecastChart` (lines 933-995), `handlePeriodChange`
(lines 1064-1084) and `renderTileForecastChart` (lines 1781-1826). -/

/-- `historical.values[historical.values.length - 1]`: the last element, or
`undefined` on an empty array. -/
def lastValue (values : List Value) : JsVal :=
  match values.getLast? with
  | some v => JsVal.num v
  | none => JsVal.undefined

/-- `[...historical.values, ...Array(forecast.dates.length).fill(null)]`. -/
def historicalSeries (historical : Historical) (forecast : Forecast) : List JsVal :=
  historical.values.map JsVal.num ++ List.replicate forecast.dates.length JsVal.null

/-- `[...Array(historical.dates.length - 1).fill(null),
historical.values[historical.values.length - 1], ...forecast.values]`.
(Only meaningful when `historical.dates` is non-empty; the composition
functions below guard the `Array(-1)` RangeError of the empty case.) -/
def forecastSeries (historical : Historical) (forecast : Forecast) : List JsVal :=
  List.replicate (historical.dates.length - 1) JsVal.null ++
    lastValue historical.values :: forecast.values.map JsVal.num

/-- `[...Array(padLen).fill(null), ...sigma]`: a band series, absence-padded
across the historical range then populated with the sigma values. -/
def bandSeries (padLen : Nat) (sigma : List Value) : List JsVal :=
  List.replicate padLen JsVal.null ++ sigma.map JsVal.num

/-- One Chart.js dataset: its label and data array. -/
structure Dataset where
  label : String
  data : List JsVal
deriving DecidableEq, Repr

/-- A composed chart: the shared date axis (`labels`) and the datasets. -/
structure ComposedChart where
  allDates : List Date
  datasets : List Dataset
deriving DecidableEq, Repr

/-- The six datasets of the full-size chart (`renderForecastChart` lines
941-996, rebuilt identically by `handlePeriodChange` lines 1065-1084):
historical line, forecast line, and all four sigma bands. -/
def composeMainDatasets (historical : Historical) (forecast : Forecast) : List Dataset :=
  [⟨"Historical", historicalSeries historical forecast⟩,
   ⟨"Forecast", forecastSeries historical forecast⟩,
   ⟨"+2σ RMSE", bandSeries historical.dates.length forecast.sigma_2_up⟩,
   ⟨"+1σ RMSE", bandSeries historical.dates.length forecast.sigma_1_up⟩,
   ⟨"-1σ RMSE", bandSeries historical.dates.length forecast.sigma_1_down⟩,
   ⟨"-2σ RMSE", bandSeries historical.dates.length forecast.sigma_2_down⟩]

/-- The four datasets of a tile chart (`renderTileForecastChart` lines
1791-1827): historical line, forecast line, and only the ±1σ band pair. -/
def composeTileDatasets (historical : Historical) (forecast : Forecast) : List Dataset :=
  [⟨"Historical", historicalSeries historical forecast⟩,
   ⟨"Forecast", forecastSeries historical forecast⟩,
   ⟨"+1σ RMSE", bandSeries historical.dates.length forecast.sigma_1_up⟩,
   ⟨"-1σ RMSE", bandSeries historical.dates.length forecast.sigma_1_down⟩]

/-- `renderForecastChart` (lines 916-1026): composes the *unsliced* data into
the six main datasets. `Array(historical.dates.length - 1)` throws a
RangeError when the history is empty, modeled as `none`. -/
def renderForecastChart (data : ForecastResult) : Option ComposedChart :=
  if data.historical.dates.length = 0 then none
  else some ⟨data.historical.dates ++ data.forecast.dates,
    composeMainDatasets data.historical data.forecast⟩

/-- `handlePeriodChange` (lines 1045-1087): re-slices the stored full data
and rebuilds the six main dataset arrays from the slice. -/
def handlePeriodChange (full : ForecastResult) (periodValue : Int) : Option ComposedChart :=
  if (sliceHistorical full.historical periodValue).dates.length = 0 then none
  else some ⟨(sliceHistorical full.historical periodValue).dates ++ full.forecast.dates,
    composeMainDatasets (sliceHistorical full.historical periodValue) full.forecast⟩

/-- `renderTileForecastChart` (lines 1753-1849): slices the historical data
by `periodValue` and composes the four tile datasets. -/
def renderTileForecastChart (data : ForecastResult) (periodValue : Int) :
    Option ComposedChart :=
  if (sliceHistorical data.historical periodValue).dates.length = 0 then none
  else some ⟨(sliceHistorical data.historical periodValue).dates ++ data.forecast.dates,
    composeTileDatasets (sliceHistorical data.historical periodValue) data.forecast⟩

/-! ## Calendar rendering and per-tile load errors

From `renderCalendar` (lines 255-521) and `loadPrecomputedModel`
(lines 553-630). -/

/-- A calendar indicator as the rendering loop sees it: `series_id` is
`none` when the entry is missing or has no `series_id` (the loop's
`continue` guard, lines 266-270); `tileOutcome` is the outcome of building
and appending this tile's DOM (the `try`/`catch` of lines 504-518, an
oracle for whether the DOM operations throw). -/
structure Indicator where
  series_id : Option String
  tileOutcome : Except String Unit

/-- One iteration of `renderCalendar`'s inner loop: an invalid indicator is
skipped with `continue` (lines 266-270); a tile whose DOM construction
throws is caught and logged (lines 516-518). Returns the appended tile's
series id, or `none` when this tile was skipped or failed. -/
def renderOneTile (ind : Indicator) : Option String :=
  match ind.series_id with
  | none => none
  | some sid =>
    match ind.tileOutcome with
    | .ok _ => some sid
    | .error _ => none

/-- The inner loop of `renderCalendar`: invalid indicators are skipped,
failing tiles are caught, and the loop continues with the rest. Returns the
series ids of the tiles that were appended. -/
def renderTiles (indicators : List Indicator) : List String :=
  indicators.filterMap renderOneTile

/-- `renderCalendar`: iterate the date groups, rendering each group's tiles. -/
def renderCalendar (calendar : List (String × List Indicator)) : List String :=
  calendar.flatMap fun g => renderTiles g.2

/-- What a tile's chart container ends up holding after
`loadPrecomputedModel`. -/
inductive TileContent where
  | spinner
  | notReady (msg : String)
  | rendered (chart : ComposedChart)
  | emptyCanvas
deriving DecidableEq, Repr

/-- Outcome of the `fetch` in `loadPrecomputedModel`: the request or JSON
parse threw, the payload carried `data.error`, or it carried `data.result`. -/
inductive FetchOutcome where
  | failure (e : String)
  | errorPayload (e : String)
  | result (r : ForecastResult)

/-- `loadPrecomputedModel` (lines 553-630), as the content its own tile's
chart container ends up with: `data.error` → "Model not ready" placeholder
(line 569); `data.result` → render the tile chart with the default period 12
(line 584); any exception in the `try` block → the `catch` restores a bare
canvas (lines 626-629). -/
def loadPrecomputedModel (outcome : FetchOutcome) : TileContent :=
  match outcome with
  | .failure _ => .emptyCanvas
  | .errorPayload e => .notReady e
  | .result r =>
    match renderTileForecastChart r 12 with
    | some c => .rendered c
    | none => .emptyCanvas

/-- A dashboard of per-series tile containers; `loadPrecomputedModel` for
`sid` writes only into `sid`'s own container. -/
def updateDashboard (dash : List (String × TileContent)) (sid : String)
    (outcome : FetchOutcome) : List (String × TileContent) :=
  match dash with
  | [] => []
  | (k, v) :: rest =>
    (if k = sid then (k, loadPrecomputedModel outcome) else (k, v)) ::
      updateDashboard rest sid outcome

/-- The content of the container of series `sid` on the dashboard. -/
def containerOf (dash : List (String × TileContent)) (sid : String) :
    Option TileContent :=
  match dash with
  | [] => none
  | (k, v) :: rest => if sid = k then some v else containerOf rest sid

/-! ## The analyze request bodies

From `getModelParams` (lines 882-910) and `runTileAnalysis`
(lines 1690-1710). -/

/-- The model selector's three options (lines 313-317). -/
inductive ModelType where
  | ARIMA
  | MovingAverage
  | MonteCarlo
deriving DecidableEq, Repr

/-- The model-configuration part of a `POST analyze` body: the shared
`n_test`/`h_future` fields plus the optional variant field each builder may
attach. -/
structure AnalyzeParams where
  n_test : Int
  h_future : Int
  order : Option (List Int)
  windows : Option (List Int)
  simulations : Option Int
deriving DecidableEq, Repr

/-- `getModelParams` (lines 882-910): the main panel's builder; each variant
attaches its own field (`order` for ARIMA, `windows` for MovingAverage,
`simulations` for MonteCarlo) alongside `n_test` and `h_future`. -/
def getModelParams (modelType : ModelType) (p d q : Int) (maWindows : List Int)
    (mcSims : Int) (nTest hFuture : Int) : AnalyzeParams :=
  match modelType with
  | .ARIMA =>
    { n_test := nTest, h_future := hFuture, order := some [p, d, q],
      windows := none, simulations := none }
  | .MovingAverage =>
    { n_test := nTest, h_future := hFuture, order := none,
      windows := some maWindows, simulations := none }
  | .MonteCarlo =>
    { n_test := nTest, h_future := hFuture, order := none,
      windows := none, simulations := some mcSims }

/-- The params `runTileAnalysis` builds (lines 1698-1701):
`let params = { n_test, h_future }` and only for ARIMA
`params.order = [p, d, q]` — no `windows` or `simulations` field is ever
attached for the other two variants. -/
def runTileAnalysisParams (modelType : ModelType) (orderP orderD orderQ : Int)
    (nTest hFuture : Int) : AnalyzeParams :=
  match modelType with
  | .ARIMA =>
    { n_test := nTest, h_future := hFuture, order := some [orderP, orderD, orderQ],
      windows := none, simulations := none }
  | _ =>
    { n_test := nTest, h_future := hFuture, order := none,
      windows := none, simulations := none }

/-- The spec's field-exact `modelConfig` shape for a variant (§6):
`{order: [p,d,q]}` for Autoregressive, `{windows: [...]}` for MovingAverage,
`{simulations: n}` for StochasticSimulation — exactly the selected variant's
field and no other variant field. -/
def specShape (modelType : ModelType) (ap : AnalyzeParams) : Prop :=
  match modelType with
  | .ARIMA => ap.order.map List.length = some 3 ∧ ap.windows = none ∧ ap.simulations = none
  | .MovingAverage => ap.order = none ∧ ap.windows ≠ none ∧ ap.simulations = none
  | .MonteCarlo => ap.order = none ∧ ap.windows = none ∧ ap.simulations ≠ none

/-! ## Re-windowing state machines

A tile canvas stores the full result on itself (`canvas._fullData = data`,
line 1758) and every period click re-renders from `canvas._fullData`
(lines 587-596, 1724-1731); the main chart stores `state.fullChartData`
(line 930, also set by `loadPrecomputedModel` line 581) and
`handlePeriodChange` re-slices `state.fullChartData` (line 1052). -/

/-- A tile chart's state: `canvas._fullData` and what is displayed. -/
structure TileState where
  fullData : ForecastResult
  displayed : Option ComposedChart
deriving DecidableEq, Repr

/-- One `renderTileForecastChart(content, data, p)` call: stores `data` as
the canvas's full data and displays the windowed composition of `data`. -/
def renderTile (data : ForecastResult) (periodValue : Int) : TileState :=
  ⟨data, renderTileForecastChart data periodValue⟩

/-- A tile period-button click: re-renders from `canvas._fullData`, never
from the currently displayed slice. -/
def clickPeriod (s : TileState) (periodValue : Int) : TileState :=
  renderTile s.fullData periodValue

/-- The main chart's state: `state.fullChartData` and the current chart. -/
structure MainChartState where
  fullChartData : ForecastResult
  chart : Option ComposedChart
deriving DecidableEq, Repr

/-- `renderForecastChart`: stores the full data and composes it unsliced. -/
def renderMainChart (data : ForecastResult) : MainChartState :=
  ⟨data, renderForecastChart data⟩

/-- A main-chart period-button click (`handlePeriodChange`): re-slices
`state.fullChartData`, never the displayed arrays. -/
def mainClick (s : MainChartState) (periodValue : Int) : MainChartState :=
  ⟨s.fullChartData, handlePeriodChange s.fullChartData periodValue⟩

/-! ## Concrete sample data (used by witnesses and counterexamples) -/

def sampleHistorical : Historical :=
  ⟨["2020-01", "2020-02", "2020-03"], [1, 2, 3]⟩

def sampleForecast : Forecast :=
  ⟨["2020-04", "2020-05"], [4, 5], [5, 6], [3, 4], [6, 7], [2, 3]⟩

def sampleComparison : Comparison :=
  ⟨["2020-02", "2020-03"], [1, 1], [1, 2]⟩

def sampleResult : ForecastResult :=
  ⟨sampleHistorical, sampleForecast, sampleComparison⟩

/-- A degenerate result with an empty history (for the composition-failure
claim). -/
def emptyHistoryResult : ForecastResult :=
  ⟨⟨[], []⟩, sampleForecast, sampleComparison⟩

/-- The windowed historical slice of the sample at period 2. -/
def sampleWindowed : Historical := sliceHistorical sampleResult.historical 2

/-- The chart `handlePeriodChange` builds from the sample at period 2. -/
def sampleMainChart : ComposedChart :=
  ⟨sampleWindowed.dates ++ sampleResult.forecast.dates,
   composeMainDatasets sampleWindowed sampleResult.forecast⟩

/-- The chart `renderTileForecastChart` builds from the sample at period 2. -/
def sampleTileChart : ComposedChart :=
  ⟨sampleWindowed.dates ++ sampleResult.forecast.dates,
   composeTileDatasets sampleWindowed sampleResult.forecast⟩

/-! ## Helper lemmas -/

lemma resolveWindow_pos (r : ForecastResult) (p : Int) (hp : 0 < p) :
    resolveWindow r p =
      ⟨⟨r.historical.dates.drop (histStart r.historical p),
        r.historical.values.drop (histStart r.historical p)⟩,
       r.forecast, r.comparison⟩ := by
  unfold resolveWindow sliceHistorical
  rw [if_pos hp]

lemma sliceHistorical_full (h : Historical) (p : Int) (hp : 0 < p)
    (hlen : h.dates.length ≤ p.toNat) : sliceHistorical h p = h := by
  unfold sliceHistorical
  rw [if_pos hp]
  have h0 : histStart h p = 0 := by
    unfold histStart
    omega
  rw [h0]
  simp

lemma sliceHistorical_values_length (h : Historical) (p : Int)
    (hw : h.values.length = h.dates.length) :
    (sliceHistorical h p).values.length = (sliceHistorical h p).dates.length := by
  unfold sliceHistorical
  split
  · simp [hw]
  · exact hw

lemma foldl_clickPeriod (ps : List Int) (s : TileState) (plast : Int)
    (h : ps.getLast? = some plast) :
    ps.foldl clickPeriod s = renderTile s.fullData plast := by
  induction ps generalizing s with
  | nil => simp at h
  | cons p rest ih =>
    cases rest with
    | nil =>
      simp at h
      subst h
      rfl
    | cons p2 rest2 =>
      rw [List.foldl_cons, List.getLast?_cons_cons] at *
      rw [ih (clickPeriod s p) h]
      rfl

lemma foldl_mainClick (ps : List Int) (s : MainChartState) (plast : Int)
    (h : ps.getLast? = some plast) :
    ps.foldl mainClick s =
      ⟨s.fullChartData, handlePeriodChange s.fullChartData plast⟩ := by
  induction ps generalizing s with
  | nil => simp at h
  | cons p rest ih =>
    cases rest with
    | nil =>
      simp at h
      subst h
      rfl
    | cons p2 rest2 =>
      rw [List.foldl_cons, List.getLast?_cons_cons] at *
      rw [ih (mainClick s p) h]
      rfl

/-! ## Claim theorems -/

/-- C1: for every ForecastResult and every positive count, resolving the
LastN(count) window slices `historical.dates` and `historical.values` from
`startIndex = max(0, len(historical.dates) - count)` onward, so the returned
historical arrays have length `min(count, len(historical.dates))`, while
`forecast` and `comparison` are untouched; when the count reaches or exceeds
the history length the slice is the entire history. -/
theorem lastN_resolve_spec (r : ForecastResult) (count : Int) (hpos : 0 < count) :
    (resolveWindow r count).historical.dates =
      r.historical.dates.drop (histStart r.historical count) ∧
    (resolveWindow r count).historical.values =
      r.historical.values.drop (histStart r.historical count) ∧
    (resolveWindow r count).historical.dates.length =
      min count.toNat r.historical.dates.length ∧
    (r.historical.values.length = r.historical.dates.length →
      (resolveWindow r count).historical.values.length =
        min count.toNat r.historical.dates.length) ∧
    (resolveWindow r count).forecast = r.forecast ∧
    (resolveWindow r count).comparison = r.comparison ∧
    ((r.historical.dates.length : Int) ≤ count →
      (resolveWindow r count).historical = r.historical) := by
  rw [resolveWindow_pos r count hpos]
  refine ⟨rfl, rfl, ?_, ?_, rfl, rfl, ?_⟩
  · simp only [List.length_drop]
    unfold histStart
    omega
  · intro hv
    simp only [List.length_drop, hv]
    unfold histStart
    omega
  · intro hle
    have h0 : histStart r.historical count = 0 := by
      unfold histStart
      omega
    rw [h0]
    simp

/-- Witness for C1: on the three-observation sample with count 2, the
windowed dates are the last two and the forecast is untouched. -/
theorem lastN_resolve_spec_witness :
    (resolveWindow sampleResult 2).historical.dates = ["2020-02", "2020-03"] ∧
    (resolveWindow sampleResult 2).historical.dates.length = 2 ∧
    (resolveWindow sampleResult 2).forecast = sampleResult.forecast := by
  have h := lastN_resolve_spec sampleResult 2 (by decide)
  exact ⟨h.1.trans (by decide), h.2.2.1.trans (by decide), h.2.2.2.2.1⟩

/-- C5: windowing is idempotent — re-resolving an already-windowed
LastN(c) slice with any count at least c (the same c included) changes
nothing. -/
theorem lastN_resolve_idempotent (r : ForecastResult) (c c2 : Int)
    (hc : 0 < c) (hcc : c ≤ c2) :
    resolveWindow (resolveWindow r c) c2 = resolveWindow r c := by
  have hc2 : 0 < c2 := lt_of_lt_of_le hc hcc
  have hlen : (resolveWindow r c).historical.dates.length ≤ c2.toNat := by
    rw [resolveWindow_pos r c hc]
    simp only [List.length_drop]
    unfold histStart
    omega
  show { resolveWindow r c with
      historical := sliceHistorical (resolveWindow r c).historical c2 } =
    resolveWindow r c
  rw [sliceHistorical_full _ _ hc2 hlen]

/-- Witness for C5: re-windowing the sample's LastN(2) slice with 2 and
with 3 both leave it unchanged. -/
theorem lastN_resolve_idempotent_witness :
    resolveWindow (resolveWindow sampleResult 2) 2 = resolveWindow sampleResult 2 ∧
    resolveWindow (resolveWindow sampleResult 2) 3 = resolveWindow sampleResult 2 := by
  exact ⟨lastN_resolve_idempotent sampleResult 2 2 (by decide) (by decide),
    lastN_resolve_idempotent sampleResult 2 3 (by decide) (by decide)⟩

/-- C9: re-windowing never compounds — every period selection re-slices the
stored full result (`canvas._fullData` for tiles, `state.fullChartData` for
the main chart), so after any sequence of selections the displayed chart is
the one obtained by applying only the last selected count to the full
result. -/
theorem rewindow_last_selection_wins (full : ForecastResult) (p0 plast : Int)
    (ps : List Int) (h : ps.getLast? = some plast) :
    (ps.foldl clickPeriod (renderTile full p0)).displayed =
      renderTileForecastChart full plast ∧
    (ps.foldl mainClick (renderMainChart full)).chart =
      handlePeriodChange full plast := by
  constructor
  · rw [foldl_clickPeriod ps _ plast h]
    rfl
  · rw [foldl_mainClick ps _ plast h]
    rfl

/-- Witness for C9: clicking 12 then 60 then 24 on the sample tile displays
exactly the direct LastN(24) composition. -/
theorem rewindow_last_selection_wins_witness :
    ([12, 60, 24].foldl clickPeriod (renderTile sampleResult 12)).displayed =
      renderTileForecastChart sampleResult 24 ∧
    ([12, 60, 24].foldl mainClick (renderMainChart sampleResult)).chart =
      handlePeriodChange sampleResult 24 :=
  rewindow_last_selection_wins sampleResult 12 24 [12, 60, 24] (by decide)

/-- C2: for every windowed slice of a well-formed result, the combined date
axis is the windowed historical dates followed by the forecast dates (plain
concatenation), and every emitted value array — `historicalSeries`,
`forecastSeries`, and each emitted band series — has the combined axis
length. -/
theorem compose_lengths_match_axis (r : ForecastResult) (p : Int)
    (c : ComposedChart) (hwf : WellFormed r)
    (h : handlePeriodChange r p = some c ∨ renderTileForecastChart r p = some c) :
    c.allDates = (sliceHistorical r.historical p).dates ++ r.forecast.dates ∧
    ∀ d ∈ c.datasets, d.data.length = c.allDates.length := by
  obtain ⟨hv, hfv, h1u, h1d, h2u, h2d⟩ := hwf
  have hsl := sliceHistorical_values_length r.historical p hv
  rcases h with h | h
  · unfold handlePeriodChange at h
    split at h
    · exact Option.noConfusion h
    · rename_i hne
      obtain rfl := (Option.some.inj h).symm
      refine ⟨rfl, ?_⟩
      intro d hd
      simp only [composeMainDatasets, List.mem_cons, List.not_mem_nil,
        or_false] at hd
      rcases hd with rfl | rfl | rfl | rfl | rfl | rfl <;>
        simp only [historicalSeries, forecastSeries, bandSeries,
          List.length_append, List.length_map, List.length_replicate,
          List.length_cons] <;>
        omega
  · unfold renderTileForecastChart at h
    split at h
    · exact Option.noConfusion h
    · rename_i hne
      obtain rfl := (Option.some.inj h).symm
      refine ⟨rfl, ?_⟩
      intro d hd
      simp only [composeTileDatasets, List.mem_cons, List.not_mem_nil,
        or_false] at hd
      rcases hd with rfl | rfl | rfl | rfl <;>
        simp only [historicalSeries, forecastSeries, bandSeries,
          List.length_append, List.length_map, List.length_replicate,
          List.length_cons] <;>
        omega

/-- Witness for C2: the sample's period-2 main chart has the concatenated
axis, and its historical dataset is as long as the axis. -/
theorem compose_lengths_match_axis_witness :
    sampleMainChart.allDates =
      (sliceHistorical sampleResult.historical 2).dates ++
        sampleResult.forecast.dates ∧
    sampleMainChart.allDates = ["2020-02", "2020-03", "2020-04", "2020-05"] ∧
    (Dataset.data
        ⟨"Historical", historicalSeries sampleWindowed sampleForecast⟩).length =
      sampleMainChart.allDates.length := by
  have h := compose_lengths_match_axis sampleResult 2 sampleMainChart
    ⟨rfl, rfl, rfl, rfl, rfl, rfl⟩ (Or.inl rfl)
  exact ⟨h.1, by decide, h.2 _ (by decide)⟩

/-- C3: for a windowed slice with H historical observations and F forecast
values, `historicalSeries` is the H windowed historical values followed by
F absence markers, and `forecastSeries` is H-1 absence markers, then the
last historical value at position H-1, then the F forecast values. -/
theorem compose_series_shapes (r : ForecastResult) (p : Int)
    (c : ComposedChart) (H F : Nat)
    (hH : (sliceHistorical r.historical p).dates.length = H)
    (hHv : (sliceHistorical r.historical p).values.length = H)
    (hF : r.forecast.dates.length = F)
    (hFv : r.forecast.values.length = F)
    (h : handlePeriodChange r p = some c ∨ renderTileForecastChart r p = some c) :
    ∃ lv, (sliceHistorical r.historical p).values.getLast? = some lv ∧
      c.datasets[0]? = some ⟨"Historical",
        (sliceHistorical r.historical p).values.map JsVal.num ++
          List.replicate F JsVal.null⟩ ∧
      c.datasets[1]? = some ⟨"Forecast",
        List.replicate (H - 1) JsVal.null ++
          JsVal.num lv :: r.forecast.values.map JsVal.num⟩ ∧
      (List.replicate (H - 1) JsVal.null ++
          JsVal.num lv :: r.forecast.values.map JsVal.num)[H - 1]? =
        some (JsVal.num lv) := by
  have hne : (sliceHistorical r.historical p).dates.length ≠ 0 := by
    intro h0
    rcases h with h | h
    · unfold handlePeriodChange at h
      rw [if_pos h0] at h
      exact Option.noConfusion h
    · unfold renderTileForecastChart at h
      rw [if_pos h0] at h
      exact Option.noConfusion h
  have hH0 : H ≠ 0 := hH ▸ hne
  have hvne : (sliceHistorical r.historical p).values ≠ [] := by
    intro hnil
    rw [hnil] at hHv
    exact hH0 hHv.symm
  obtain ⟨lv, hlv⟩ :=
    Option.isSome_iff_exists.mp (List.getLast?_isSome.mpr hvne)
  have hpos : (List.replicate (H - 1) JsVal.null ++
      JsVal.num lv :: r.forecast.values.map JsVal.num)[H - 1]? =
      some (JsVal.num lv) := by
    rw [List.getElem?_append_right (by simp)]
    simp
  refine ⟨lv, hlv, ?_⟩
  rcases h with h | h
  · unfold handlePeriodChange at h
    split at h
    · exact Option.noConfusion h
    · obtain rfl := (Option.some.inj h).symm
      refine ⟨?_, ?_, hpos⟩
      · simp [composeMainDatasets, historicalSeries, hF]
      · simp [composeMainDatasets, forecastSeries, hH, lastValue, hlv]
  · unfold renderTileForecastChart at h
    split at h
    · exact Option.noConfusion h
    · obtain rfl := (Option.some.inj h).symm
      refine ⟨?_, ?_, hpos⟩
      · simp [composeTileDatasets, historicalSeries, hF]
      · simp [composeTileDatasets, forecastSeries, hH, lastValue, hlv]

/-- Witness for C3: on the sample tile chart at period 2 (H = 2, F = 2), the
last windowed value 3 joins the two lines at position 1. -/
theorem compose_series_shapes_witness :
    (sliceHistorical sampleResult.historical 2).values.getLast? = some 3 ∧
    sampleTileChart.datasets[1]? = some ⟨"Forecast",
      List.replicate 1 JsVal.null ++
        JsVal.num 3 :: sampleResult.forecast.values.map JsVal.num⟩ := by
  obtain ⟨lv, hlv, h0, h1, hp⟩ := compose_series_shapes sampleResult 2
    sampleTileChart 2 2 rfl rfl rfl rfl (Or.inr rfl)
  have h3 : lv = 3 := Option.some.inj (hlv.symm.trans (by decide))
  subst h3
  exact ⟨hlv, h1⟩

/-- C4 counterexample: on the sample result windowed to the last two
observations, the tile composition emits neither the `sigma2Up` nor the
`sigma2Down` band series — its datasets are only the two lines and the
sigma1 pair. -/
theorem tile_chart_missing_sigma2 :
    renderTileForecastChart sampleResult 2 = some sampleTileChart ∧
    ¬ (bandSeries 2 sampleResult.forecast.sigma_2_up ∈
        sampleTileChart.datasets.map Dataset.data) ∧
    ¬ (bandSeries 2 sampleResult.forecast.sigma_2_down ∈
        sampleTileChart.datasets.map Dataset.data) ∧
    sampleTileChart.datasets.length = 4 := by
  decide

/-- C4 (amended): the full-size composition (`renderForecastChart` /
`handlePeriodChange`) emits all four band series, while the tile
composition emits only the sigma1 upper/lower pair; every emitted band
series is absence-padded across the entire historical range and populated
only across the forecast range, and paired bands have matched lengths. -/
theorem compose_band_series (r : ForecastResult) (p : Int)
    (c ct : ComposedChart) (hwf : WellFormed r)
    (hm : handlePeriodChange r p = some c)
    (ht : renderTileForecastChart r p = some ct) :
    (c.datasets.map Dataset.data).drop 2 =
      [bandSeries (sliceHistorical r.historical p).dates.length
          r.forecast.sigma_2_up,
       bandSeries (sliceHistorical r.historical p).dates.length
          r.forecast.sigma_1_up,
       bandSeries (sliceHistorical r.historical p).dates.length
          r.forecast.sigma_1_down,
       bandSeries (sliceHistorical r.historical p).dates.length
          r.forecast.sigma_2_down] ∧
    (ct.datasets.map Dataset.data).drop 2 =
      [bandSeries (sliceHistorical r.historical p).dates.length
          r.forecast.sigma_1_up,
       bandSeries (sliceHistorical r.historical p).dates.length
          r.forecast.sigma_1_down] ∧
    (∀ (n : Nat) (sigma : List Value),
      (bandSeries n sigma).take n = List.replicate n JsVal.null ∧
      (bandSeries n sigma).drop n = sigma.map JsVal.num) ∧
    (bandSeries (sliceHistorical r.historical p).dates.length
        r.forecast.sigma_1_up).length =
      (bandSeries (sliceHistorical r.historical p).dates.length
        r.forecast.sigma_1_down).length ∧
    (bandSeries (sliceHistorical r.historical p).dates.length
        r.forecast.sigma_2_up).length =
      (bandSeries (sliceHistorical r.historical p).dates.length
        r.forecast.sigma_2_down).length := by
  obtain ⟨hv, hfv, h1u, h1d, h2u, h2d⟩ := hwf
  refine ⟨?_, ?_, ?_, ?_, ?_⟩
  · unfold handlePeriodChange at hm
    split at hm
    · exact Option.noConfusion hm
    · obtain rfl := (Option.some.inj hm).symm
      rfl
  · unfold renderTileForecastChart at ht
    split at ht
    · exact Option.noConfusion ht
    · obtain rfl := (Option.some.inj ht).symm
      rfl
  · intro n sigma
    constructor
    · exact List.take_left' (List.length_replicate n JsVal.null)
    · exact List.drop_left' (List.length_replicate n JsVal.null)
  · simp only [bandSeries, List.length_append, List.length_map,
      List.length_replicate]
    omega
  · simp only [bandSeries, List.length_append, List.length_map,
      List.length_replicate]
    omega

/-- Witness for C4 (amended): on the sample at period 2 the main chart's
band datasets are exactly the four padded sigma series and the tile chart's
are exactly the sigma1 pair. -/
theorem compose_band_series_witness :
    (sampleMainChart.datasets.map Dataset.data).drop 2 =
      [bandSeries 2 sampleForecast.sigma_2_up,
       bandSeries 2 sampleForecast.sigma_1_up,
       bandSeries 2 sampleForecast.sigma_1_down,
       bandSeries 2 sampleForecast.sigma_2_down] ∧
    (sampleTileChart.datasets.map Dataset.data).drop 2 =
      [bandSeries 2 sampleForecast.sigma_1_up,
       bandSeries 2 sampleForecast.sigma_1_down] := by
  have h := compose_band_series sampleResult 2 sampleMainChart sampleTileChart
    ⟨rfl, rfl, rfl, rfl, rfl, rfl⟩ rfl rfl
  exact ⟨h.1, h.2.1⟩

/-- C10: chart composition is only defined on a windowed slice with at
least one historical observation — on a non-empty windowed history both
compositions (and the unwindowed `renderForecastChart`) succeed, and on an
empty history all of them fail (the JS `Array(length - 1)` RangeError)
instead of producing an absence-padded chart. -/
theorem compose_requires_history (r : ForecastResult) (p : Int) :
    ((sliceHistorical r.historical p).dates = [] →
      renderTileForecastChart r p = none ∧ handlePeriodChange r p = none) ∧
    ((sliceHistorical r.historical p).dates ≠ [] →
      (renderTileForecastChart r p).isSome ∧ (handlePeriodChange r p).isSome) ∧
    (r.historical.dates = [] → renderForecastChart r = none) ∧
    (r.historical.dates ≠ [] → (renderForecastChart r).isSome) := by
  refine ⟨?_, ?_, ?_, ?_⟩ <;> intro h
  · constructor <;> simp [renderTileForecastChart, handlePeriodChange, h]
  · constructor <;>
      simp [renderTileForecastChart, handlePeriodChange, List.length_eq_zero, h]
  · simp [renderForecastChart, h]
  · simp [renderForecastChart, List.length_eq_zero, h]

/-- Witness for C10: composition fails on the empty-history sample and
succeeds on the three-observation sample. -/
theorem compose_requires_history_witness :
    renderTileForecastChart emptyHistoryResult 2 = none ∧
    handlePeriodChange emptyHistoryResult 2 = none ∧
    (renderTileForecastChart sampleResult 2).isSome := by
  have h1 := (compose_requires_history emptyHistoryResult 2).1 rfl
  have h2 := (compose_requires_history sampleResult 2).2.1 (by decide)
  exact ⟨h1.1, h1.2, h2.1⟩

lemma renderOneTile_none (bad : Indicator)
    (hbad : bad.series_id = none ∨ ∃ e, bad.tileOutcome = Except.error e) :
    renderOneTile bad = none := by
  rcases hbad with hb | ⟨e, hb⟩
  · simp [renderOneTile, hb]
  · cases hsid : bad.series_id <;> simp [renderOneTile, hsid, hb]

/-- C7: a failure affecting one tile never prevents the rest — a bad
indicator or a tile whose rendering throws is skipped and the remaining
tiles are rendered exactly as without it, and a per-series load error
writes only into that series' own container, leaving every other series'
container untouched. -/
theorem tile_failure_isolated (pre post : List Indicator) (bad : Indicator)
    (hbad : bad.series_id = none ∨ ∃ e, bad.tileOutcome = Except.error e)
    (dash : List (String × TileContent)) (sid other : String)
    (outcome : FetchOutcome) (hother : other ≠ sid) :
    renderTiles (pre ++ bad :: post) = renderTiles pre ++ renderTiles post ∧
    containerOf (updateDashboard dash sid outcome) other = containerOf dash other := by
  constructor
  · unfold renderTiles
    rw [List.filterMap_append, List.filterMap_cons_none (renderOneTile_none bad hbad)]
  · induction dash with
    | nil => rfl
    | cons head tail ih =>
      obtain ⟨k, v⟩ := head
      simp only [updateDashboard]
      by_cases hk : k = sid
      · subst hk
        rw [if_pos rfl]
        simp only [containerOf]
        rw [if_neg hother, if_neg hother]
        exact ih
      · rw [if_neg hk]
        simp only [containerOf]
        by_cases ho : other = k
        · rw [if_pos ho, if_pos ho]
        · rw [if_neg ho, if_neg ho]
          exact ih

/-- Series ids and a failing fetch used by the per-tile isolation witness. -/
def gdpId : String := "GDP"

def cpiId : String := "CPI"

def networkFailure : FetchOutcome := FetchOutcome.failure ("network")

/-- Witness for C7: an invalid middle indicator is skipped while both
neighbors render, and a failed load for one series leaves the other
series' container unchanged. -/
theorem tile_failure_isolated_witness :
    renderTiles [⟨some gdpId, Except.ok ()⟩, ⟨none, Except.ok ()⟩,
      ⟨some cpiId, Except.ok ()⟩] = [gdpId, cpiId] ∧
    containerOf
        (updateDashboard [(gdpId, TileContent.spinner), (cpiId, TileContent.spinner)]
          gdpId networkFailure) cpiId =
      some TileContent.spinner := by
  have h := tile_failure_isolated [⟨some gdpId, Except.ok ()⟩]
    [⟨some cpiId, Except.ok ()⟩] ⟨none, Except.ok ()⟩ (Or.inl rfl)
    [(gdpId, TileContent.spinner), (cpiId, TileContent.spinner)]
    gdpId cpiId networkFailure (by decide)
  exact ⟨h.1.trans rfl, h.2.trans rfl⟩

/-- C8 counterexample: the tile-built analyze request for the MovingAverage
variant does not carry the spec's `{windows: [...]}` field (its `windows`
field is absent), so it does not have the field-exact shape the claim
requires of every request. -/
theorem tile_analyze_params_missing_variant_fields :
    (runTileAnalysisParams ModelType.MovingAverage 1 1 1 12 6).windows = none ∧
    ¬ specShape ModelType.MovingAverage
        (runTileAnalysisParams ModelType.MovingAverage 1 1 1 12 6) ∧
    (runTileAnalysisParams ModelType.MonteCarlo 1 1 1 12 6).simulations = none ∧
    ¬ specShape ModelType.MonteCarlo
        (runTileAnalysisParams ModelType.MonteCarlo 1 1 1 12 6) := by
  refine ⟨rfl, ?_, rfl, ?_⟩
  · intro h
    exact h.2.1 rfl
  · intro h
    exact h.2.2 rfl

/-- C8 (amended): the main panel's `getModelParams` builds the field-exact
spec shape for every variant — `{order: [p,d,q]}` for ARIMA,
`{windows: [...]}` for MovingAverage, `{simulations: n}` for MonteCarlo —
always with the shared `n_test`/`h_future` fields; the tile builder
`runTileAnalysisParams` attaches `order` for ARIMA only and never attaches
`windows` or `simulations`, while still always carrying the shared
fields. -/
theorem analyze_request_shape (p d q : Int) (ws : List Int) (sims : Int)
    (nT hF oP oD oQ tnT thF : Int) :
    specShape ModelType.ARIMA (getModelParams .ARIMA p d q ws sims nT hF) ∧
    specShape ModelType.MovingAverage
      (getModelParams .MovingAverage p d q ws sims nT hF) ∧
    specShape ModelType.MonteCarlo
      (getModelParams .MonteCarlo p d q ws sims nT hF) ∧
    (getModelParams .ARIMA p d q ws sims nT hF).order = some [p, d, q] ∧
    (getModelParams .MovingAverage p d q ws sims nT hF).windows = some ws ∧
    (getModelParams .MonteCarlo p d q ws sims nT hF).simulations = some sims ∧
    (∀ mt : ModelType, (getModelParams mt p d q ws sims nT hF).n_test = nT ∧
      (getModelParams mt p d q ws sims nT hF).h_future = hF) ∧
    specShape ModelType.ARIMA (runTileAnalysisParams .ARIMA oP oD oQ tnT thF) ∧
    (runTileAnalysisParams .ARIMA oP oD oQ tnT thF).order = some [oP, oD, oQ] ∧
    (∀ mt : ModelType,
      (runTileAnalysisParams mt oP oD oQ tnT thF).n_test = tnT ∧
      (runTileAnalysisParams mt oP oD oQ tnT thF).h_future = thF ∧
      (runTileAnalysisParams mt oP oD oQ tnT thF).windows = none ∧
      (runTileAnalysisParams mt oP oD oQ tnT thF).simulations = none) ∧
    (runTileAnalysisParams .MovingAverage oP oD oQ tnT thF).order = none ∧
    (runTileAnalysisParams .MonteCarlo oP oD oQ tnT thF).order = none := by
  refine ⟨⟨rfl, rfl, rfl⟩, ⟨rfl, ?_, rfl⟩, ⟨rfl, rfl, ?_⟩, rfl, rfl, rfl,
    ?_, ⟨rfl, rfl, rfl⟩, rfl, ?_, rfl, rfl⟩
  · intro h
    exact Option.noConfusion h
  · intro h
    exact Option.noConfusion h
  · intro mt
    cases mt <;> exact ⟨rfl, rfl⟩
  · intro mt
    cases mt <;> exact ⟨rfl, rfl, rfl, rfl⟩

/-- Witness for C8 (amended): at concrete inputs the main panel's
MovingAverage request has the spec shape and the tile ARIMA request carries
its order triple. -/
theorem analyze_request_shape_witness :
    specShape ModelType.MovingAverage
      (getModelParams .MovingAverage 1 1 1 [3, 6] 100 12 6) ∧
    (runTileAnalysisParams .ARIMA 1 1 1 12 6).order = some [1, 1, 1] ∧
    (runTileAnalysisParams .MovingAverage 1 1 1 12 6).order = none := by
  have h := analyze_request_shape 1 1 1 [3, 6] 100 12 6 1 1 1 12 6
  exact ⟨h.2.1, h.2.2.2.2.2.2.2.2.1, h.2.2.2.2.2.2.2.2.2.2.1⟩

end EconTerminal
